import Mathlib

/-!
Shallow embedding of the hnbt-v2 reservation system (scheduler, per-task
proxy manager, purchase state machine, orchestrator) and proofs about it.

Sources embedded, with JavaScript file and function names kept where Lean
allows:
* `proxy-manager.js` / `multi-proxy-manager.js` : `isNetworkError`, `switchProxy`
* `purchase-flow.js` : `getSystemTicket`, `verifyTicket`, `submitReservation`,
  `executeWithNetworkErrorHandling`, `executePurchaseFlow`
* `dynamic-executor.js` : `executeDynamicMultipleAccounts`,
  `startContinuousProxyValidation`, `tryAssignProxyToAccount`,
  `executeFlowWithProxyManager`, `executeStepWithProxyManager`
* `proxy-config.js` : `parseBatchProxyResponse`

Asynchronous fan-out is serialized in validation-completion order; network
calls are abstracted as environments (lists or functions supplying each
remote outcome); JavaScript strings become Lean `String`, absent fields
(`undefined` / `null`) become `Option`.
-/

namespace Hnbt

/-- Substring occurrence on character lists: `containsSub pat s` is true iff
`pat` occurs contiguously in `s`.  Models the JavaScript
`String.prototype.includes`. -/
def containsSub (pat : List Char) : List Char → Bool
  | [] => pat.isEmpty
  | c :: rest => pat.isPrefixOf (c :: rest) || containsSub pat rest

/-- JavaScript `s.includes(pat)`. -/
def strIncludes (s pat : String) : Bool :=
  containsSub pat.data s.data

/-- JavaScript `s.toLowerCase()` (ASCII letters; other code points are
unchanged, matching the strings that appear in the sources). -/
def jsToLower (s : String) : String :=
  String.mk (s.data.map Char.toLower)

/-- A thrown JavaScript error as seen by the classifier: `error.message`,
`error.code`, and `error.response?.status`.  An absent field is `none`. -/
structure JsError where
  message : Option String
  code : Option String
  status : Option Nat
deriving DecidableEq, Repr

/-- The connection-level error codes recognized by `isNetworkError`
(`proxy-manager.js` lines 52-59 and `multi-proxy-manager.js` lines 37-44). -/
def isConnErrorCode (c : String) : Bool :=
  c == "ECONNRESET" || c == "ECONNREFUSED" || c == "ETIMEDOUT" ||
  c == "ENOTFOUND" || c == "ECONNABORTED" || c == "EHOSTUNREACH" ||
  c == "ENETUNREACH" || c == "EAI_AGAIN"

/-- `ProxyManager.isNetworkError` / `IndependentProxyManager.isNetworkError`:
transport-vs-business classifier.  Transcribed clause for clause from
`proxy-manager.js` lines 38-104 (identical in `multi-proxy-manager.js`):
`errorMessage = error.message?.toLowerCase() || ''`,
`errorCode = error.code || ''`, `status = error.response?.status || 0`,
then the big disjunction in source order. -/
def isNetworkError (e : JsError) : Bool :=
  let errorMessage := jsToLower (e.message.getD "")
  let errorCode := e.code.getD ""
  let status := e.status.getD 0
  (decide (500 ≤ status) || status == 0) ||
  isConnErrorCode errorCode ||
  strIncludes errorMessage "tls" ||
  strIncludes errorMessage "ssl" ||
  strIncludes errorMessage "secure" ||
  strIncludes errorMessage "certificate" ||
  strIncludes errorMessage "handshake" ||
  strIncludes errorMessage "socket" ||
  strIncludes errorMessage "disconnected" ||
  strIncludes errorMessage "closed" ||
  strIncludes errorMessage "ended" ||
  strIncludes errorMessage "proxy" ||
  strIncludes errorMessage "tunnel" ||
  (status == 0 &&
    (strIncludes errorMessage "connect" ||
     strIncludes errorMessage "connection" ||
     strIncludes errorMessage "refused" ||
     strIncludes errorMessage "reset" ||
     strIncludes errorMessage "timeout" ||
     strIncludes errorMessage "unreachable")) ||
  strIncludes errorMessage "network" ||
  strIncludes errorMessage "dns" ||
  strIncludes errorMessage "resolve" ||
  strIncludes errorMessage "network error" ||
  (status == 0 && strIncludes errorMessage "request failed") ||
  strIncludes errorMessage "request timeout" ||
  strIncludes errorMessage "getaddrinfo" ||
  strIncludes errorMessage "eai_again" ||
  strIncludes errorMessage "lookup"

/-- The substring clauses of `isNetworkError` that apply with NO guard on the
HTTP status (every `errorMessage.includes(...)` clause outside the two
`status === 0 && ...` groups).  Used to state exactly when a 4xx error is
still classified as transport. -/
def transportTextClauses (m : String) : Bool :=
  strIncludes m "tls" || strIncludes m "ssl" || strIncludes m "secure" ||
  strIncludes m "certificate" || strIncludes m "handshake" ||
  strIncludes m "socket" || strIncludes m "disconnected" ||
  strIncludes m "closed" || strIncludes m "ended" ||
  strIncludes m "proxy" || strIncludes m "tunnel" ||
  strIncludes m "network" || strIncludes m "dns" || strIncludes m "resolve" ||
  strIncludes m "network error" || strIncludes m "request timeout" ||
  strIncludes m "getaddrinfo" || strIncludes m "eai_again" ||
  strIncludes m "lookup"

/-- A task / account (`accounts.json` entry): only the identity fields the
scheduler keys on; credentials and selection payload are opaque here. -/
structure Account where
  name : String
  phone : String
  accId : String
deriving DecidableEq, Repr

/-- A proxy route as produced by `proxy-config.js` parsing (address, port,
vendor tag, optional expiry) — the `validatedIP` field is added on
validation success and is not needed for the claims. -/
structure ProxyInfo where
  server : String
  port : Nat
  source : String
  expire : Option String
deriving DecidableEq, Repr

/-- The per-account record stored in `DynamicMultiAccountExecutor.results`. -/
structure TaskResult where
  account : Account
  success : Bool
  error : Option String
deriving DecidableEq, Repr

/-- The ticket-expired test of `submitReservation` (`purchase-flow.js` line
283), with JavaScript operator precedence kept:
`code === TICKET_INVALID || ((message && message.includes(票据无效)) || message.includes(已过期))`.
`message = none` models `undefined`/`null`; evaluating
`message.includes(已过期)` on it raises a `TypeError`, returned as
`.error ()`.  An empty string is falsy in JavaScript but still supports
`.includes`, so `some ""` reaches the second `includes` without error. -/
def ticketExpiredCheck (code message : Option String) : Except Unit Bool :=
  if code == some "TICKET_INVALID" then .ok true
  else
    match message with
    | none => .error ()
    | some m => .ok ((decide (m ≠ "") && strIncludes m "票据无效") || strIncludes m "已过期")

/-- The `TypeError` raised when `message.includes` is evaluated on an absent
message: a plain runtime error, so it has no `response` (status absent) and
no `code`. -/
def typeErrorOnIncludes : JsError :=
  { message := some "Cannot read properties of undefined (reading includes)",
    code := none, status := none }

/-- One iteration of the `while (true)` retry loop inside `submitReservation`:
either the awaited response (`success`, `code`, `message`) or a thrown
request error. -/
inductive SubmitAttempt
  | response (success : Bool) (code : Option String) (message : Option String)
  | thrown (e : JsError)
deriving DecidableEq, Repr

/-- How a `submitReservation` call can leave its retry loop. -/
inductive SubmitOutcome
  | ok
  | ticketExpired (message : Option String)
  | netThrow (message : String)
  | exhausted
deriving DecidableEq, Repr

/-- `submitReservation` (`purchase-flow.js` lines 222-323): the unbounded
`while (true)` loop, driven by a finite trace of remote outcomes; the pair
returned is (how the loop ended, number of SUBMIT calls it made).
`.exhausted` means the trace ran out while the loop was still retrying.
On a response: `success` returns; the ticket-expired check may return, may
raise the `TypeError` of `ticketExpiredCheck` (caught by the same `catch`),
or the loop falls through to the next attempt (`其他失败情况，立即重试`).
The `catch` rethrows `NETWORK_ERROR: ...` when `isNetworkError` holds and
otherwise continues the loop. -/
def submitReservationLoop : List SubmitAttempt → SubmitOutcome × Nat
  | [] => (.exhausted, 0)
  | a :: rest =>
    match a with
    | .response true _ _ => (.ok, 1)
    | .response false code msg =>
      match ticketExpiredCheck code msg with
      | .ok true => (.ticketExpired msg, 1)
      | .ok false =>
        let p := submitReservationLoop rest
        (p.1, p.2 + 1)
      | .error _ =>
        let e := typeErrorOnIncludes
        if isNetworkError e then
          (.netThrow ("NETWORK_ERROR: " ++ e.message.getD ""), 1)
        else
          let p := submitReservationLoop rest
          (p.1, p.2 + 1)
    | .thrown e =>
      if isNetworkError e then
        (.netThrow ("NETWORK_ERROR: " ++ e.message.getD ""), 1)
      else
        let p := submitReservationLoop rest
        (p.1, p.2 + 1)

/-- One iteration of the `getSystemTicket` polling loop: the awaited response
(`success`, `data?.ticket`, `message`) or a thrown request error. -/
inductive TicketAttempt
  | response (success : Bool) (ticket : Option String) (message : Option String)
  | thrown (e : JsError)
deriving DecidableEq, Repr

/-- How a `getSystemTicket` call can leave its polling loop. -/
inductive TicketLoopResult
  | gotTicket (t : String)
  | netThrow (message : String)
deriving DecidableEq, Repr

/-- `getSystemTicket` (`purchase-flow.js` lines 58-131): `while (true)`
hot-poll.  Returns on `success && data && data.ticket`; a thrown error is
rethrown as `NETWORK_ERROR: ...` only when `isNetworkError` holds; every
other response or error falls through to an immediate re-call.  The pair is
(result if the loop ended within the trace, number of calls made). -/
def getSystemTicketLoop : List TicketAttempt → Option TicketLoopResult × Nat
  | [] => (none, 0)
  | .response true (some t) _ :: _ => (some (.gotTicket t), 1)
  | .response _ _ _ :: rest =>
    let p := getSystemTicketLoop rest
    (p.1, p.2 + 1)
  | .thrown e :: rest =>
    if isNetworkError e then
      (some (.netThrow ("NETWORK_ERROR: " ++ e.message.getD "")), 1)
    else
      let p := getSystemTicketLoop rest
      (p.1, p.2 + 1)

/-- One iteration of the `verifyTicket` polling loop. -/
inductive VerifyAttempt
  | response (success : Bool) (message : Option String)
  | thrown (e : JsError)
deriving DecidableEq, Repr

/-- How a `verifyTicket` call can leave its polling loop. -/
inductive VerifyLoopResult
  | verified
  | netThrow (message : String)
deriving DecidableEq, Repr

/-- `verifyTicket` (`purchase-flow.js` lines 140-213): same hot-poll shape as
`getSystemTicket`, returning on `success` and rethrowing `NETWORK_ERROR:`
only on transport-classified thrown errors. -/
def verifyTicketLoop : List VerifyAttempt → Option VerifyLoopResult × Nat
  | [] => (none, 0)
  | .response true _ :: _ => (some .verified, 1)
  | .response false _ :: rest =>
    let p := verifyTicketLoop rest
    (p.1, p.2 + 1)
  | .thrown e :: rest =>
    if isNetworkError e then
      (some (.netThrow ("NETWORK_ERROR: " ++ e.message.getD "")), 1)
    else
      let p := verifyTicketLoop rest
      (p.1, p.2 + 1)

/-- Whether a `getSystemTicket` loop iteration terminates the hot-poll:
a response carrying a ticket, or a thrown error that `isNetworkError`
classifies as transport. -/
def ticketTerminal : TicketAttempt → Bool
  | .response true (some _) _ => true
  | .response _ _ _ => false
  | .thrown e => isNetworkError e

/-- Whether a `verifyTicket` loop iteration terminates the hot-poll. -/
def verifyTerminal : VerifyAttempt → Bool
  | .response true _ => true
  | .response false _ => false
  | .thrown e => isNetworkError e

/-- The outcome of a single invocation of a protocol-step function
(`getSystemTicket` / `verifyTicket` / `submitReservation`) as seen by the
step-execution wrappers: either a resolved result (tagged opaquely) or a
thrown error. -/
inductive StepAttempt
  | ok (resultTag : String)
  | thrown (e : JsError)
deriving DecidableEq, Repr

/-- The record a step-execution wrapper returns, instrumented with how many
times the step function was invoked and whether `switchProxy` was called. -/
structure StepOutcome where
  success : Bool
  error : Option String
  hasResult : Bool
  dupStop : Bool
  switchCalled : Bool
  stepCalls : Nat
deriving DecidableEq, Repr

/-- `DynamicMultiAccountExecutor.executeStepWithProxyManager`
(`dynamic-executor.js` lines 688-765).  Inputs: the first invocation's
outcome, what `proxyManager.switchProxy()` would yield, and the retry
invocation's outcome.  On a thrown error it first short-circuits messages
carrying the `DUPLICATE_SUBMISSION:` marker (returning a `shouldStop`
result without switching); otherwise it classifies with
`isNetworkError(error) || error.message?.includes(NETWORK_ERROR:)`; on a
transport error it calls `switchProxy`, retries exactly once when a route is
yielded (failing with the retry error message if the retry throws), and
fails with `无法获取到可用代理，(stepName) 执行失败` when no route is
yielded; on a business error it returns the error message unretried. -/
def executeStepWithProxyManager (first : StepAttempt) (switchResult : Option ProxyInfo)
    (retry : StepAttempt) (stepName : String) : StepOutcome :=
  match first with
  | .ok _ => ⟨true, none, true, false, false, 1⟩
  | .thrown e =>
    let msg := e.message.getD ""
    if strIncludes msg "DUPLICATE_SUBMISSION:" then
      ⟨false, none, true, true, false, 1⟩
    else
      let isNetErr := isNetworkError e || strIncludes msg "NETWORK_ERROR:"
      if isNetErr then
        match switchResult with
        | some _ =>
          match retry with
          | .ok _ => ⟨true, none, true, false, true, 2⟩
          | .thrown re => ⟨false, some (re.message.getD ""), false, false, true, 2⟩
        | none =>
          ⟨false, some ("无法获取到可用代理，" ++ stepName ++ " 执行失败"), false, false, true, 1⟩
      else ⟨false, some msg, false, false, false, 1⟩

/-- `executeWithNetworkErrorHandling` (`purchase-flow.js` lines 333-404): the
single-account wrapper.  Same transport classification and single retry, but
no duplicate short-circuit, and when `switchProxy` yields no route the
record returned carries the ORIGINAL error (`error: error`), not a no-route
message. -/
def executeWithNetworkErrorHandling (first : StepAttempt) (switchResult : Option ProxyInfo)
    (retry : StepAttempt) : StepOutcome :=
  match first with
  | .ok _ => ⟨true, none, true, false, false, 1⟩
  | .thrown e =>
    let msg := e.message.getD ""
    let isNetErr := isNetworkError e || strIncludes msg "NETWORK_ERROR:"
    if isNetErr then
      match switchResult with
      | some _ =>
        match retry with
        | .ok _ => ⟨true, none, true, false, true, 2⟩
        | .thrown re => ⟨false, some (re.message.getD ""), false, false, true, 2⟩
      | none => ⟨false, some msg, false, false, true, 1⟩
    else ⟨false, some msg, false, false, false, 1⟩

/-- Mutable state of an `IndependentProxyManager`
(`multi-proxy-manager.js`): the switch counter and the installed route. -/
structure PMState where
  switchCount : Nat
  currentProxy : Option ProxyInfo
deriving DecidableEq, Repr

/-- Outcome of one acquisition attempt inside `switchProxy`:
`getProxyFromSource` threw; it returned an empty list (which `switchProxy`
turns into the thrown `代理API返回的IP列表为空…` error, the 5-second branch
of the `catch`); `testProxyIP` rejected the candidate; or validation
succeeded with a route. -/
inductive AcqOutcome
  | fetchThrow (msg : String)
  | fetchedEmpty
  | validateFail (err : String)
  | validateOk (p : ProxyInfo)
deriving Repr

/-- `IndependentProxyManager.switchProxy` (`multi-proxy-manager.js` lines
95-167) with `maxSwitchAttempts = 20`.  The environment `env` supplies the
outcome of the i-th acquisition attempt of this call chain.  Returns (the
route handed back or `none` for unavailable, the final manager state, the
number of acquisition attempts performed, counted at the `switchCount++`).
Entry guard: at `switchCount >= 20` return `null` immediately.  On
validation success: reset the counter to 0 and install the route.  On the
failure paths the source recurses (`return await this.switchProxy()`) only
while `switchCount < 20`, else returns `null`. -/
def switchProxy (env : Nat → AcqOutcome) (i : Nat) (s : PMState) :
    Option ProxyInfo × PMState × Nat :=
  if 20 ≤ s.switchCount then (none, s, 0)
  else
    let s1 : PMState := { s with switchCount := s.switchCount + 1 }
    match env i with
    | .validateOk p => (some p, { switchCount := 0, currentProxy := some p }, 1)
    | .validateFail _ =>
      if s1.switchCount < 20 then
        let r := switchProxy env (i + 1) s1
        (r.1, r.2.1, r.2.2 + 1)
      else (none, s1, 1)
    | .fetchedEmpty =>
      if s1.switchCount < 20 then
        let r := switchProxy env (i + 1) s1
        (r.1, r.2.1, r.2.2 + 1)
      else (none, s1, 1)
    | .fetchThrow _ =>
      if s1.switchCount < 20 then
        let r := switchProxy env (i + 1) s1
        (r.1, r.2.1, r.2.2 + 1)
      else (none, s1, 1)
termination_by 20 - s.switchCount
decreasing_by
  all_goals simp only [PMState.mk.injEq] at *
  all_goals omega

/-- What one iteration of the `while (ticketRefreshCount < maxTicketRefresh)`
loop of `executeFlowWithProxyManager` (`dynamic-executor.js` lines 544-657)
observes, after the three wrapped steps have settled:
`ticketFail` / `verifyFail` are the `!result.success` checks that throw
(caught by the outer `catch`); the `submit*` constructors are the submit
result dispatch (`success`, `result.shouldStop`, `result.needRefreshTicket`,
other failure). -/
inductive IterEvent
  | ticketFail
  | verifyFail
  | submitOk (message : String)
  | submitStop (message : Option String)
  | submitNeedRefresh
  | submitOtherFail (err : String)
deriving DecidableEq, Repr

/-- The terminal result of one `executeFlowWithProxyManager` run, carrying
the final `ticketRefreshCount`.  `maxRefreshFail` is the in-loop
`已达到最大ticket刷新次数 (10)，停止尝试` failure; `loopExitFail` is the
post-loop `超过最大ticket刷新次数 (10)` failure; `noMoreEvents` is the model
artifact for a trace that ends while the loop would continue. -/
inductive FlowOutcome
  | success (message : String) (refreshCount : Nat)
  | thrownFail (err : String) (refreshCount : Nat)
  | duplicateStop (message : Option String) (refreshCount : Nat)
  | maxRefreshFail (refreshCount : Nat)
  | otherFail (err : String) (refreshCount : Nat)
  | loopExitFail (refreshCount : Nat)
  | noMoreEvents (refreshCount : Nat)
deriving DecidableEq, Repr

/-- The `ticketRefreshCount` recorded in a `FlowOutcome`. -/
def FlowOutcome.refreshCount : FlowOutcome → Nat
  | .success _ c => c
  | .thrownFail _ c => c
  | .duplicateStop _ c => c
  | .maxRefreshFail c => c
  | .otherFail _ c => c
  | .loopExitFail c => c
  | .noMoreEvents c => c

/-- Whether a `FlowOutcome` is the success outcome. -/
def FlowOutcome.isSuccess : FlowOutcome → Bool
  | .success _ _ => true
  | _ => false

/-- `executeFlowWithProxyManager` (`dynamic-executor.js` lines 527-678; the
refresh logic is identical in `executePurchaseFlow`, `purchase-flow.js`
lines 412-581): the loop guarded by `ticketRefreshCount < maxTicketRefresh`,
returning also the trace of `ticketRefreshCount` values observed at each
loop entry plus the final value.  On `submitNeedRefresh` the counter is
incremented; at `>= maxTicketRefresh` the loop returns the max-refresh
failure, otherwise it continues with the next iteration. -/
def executeFlowLoop (maxTicketRefresh : Nat) :
    List IterEvent → Nat → FlowOutcome × List Nat
  | evs, c =>
    if c < maxTicketRefresh then
      match evs with
      | [] => (.noMoreEvents c, [c])
      | e :: rest =>
        match e with
        | .ticketFail => (.thrownFail "获取系统ticket失败" c, [c])
        | .verifyFail => (.thrownFail "校验ticket失败" c, [c])
        | .submitOk m => (.success m c, [c])
        | .submitStop m => (.duplicateStop m c, [c])
        | .submitNeedRefresh =>
          if c + 1 ≥ maxTicketRefresh then (.maxRefreshFail (c + 1), [c, c + 1])
          else
            let p := executeFlowLoop maxTicketRefresh rest (c + 1)
            (p.1, c :: p.2)
        | .submitOtherFail err => (.otherFail err c, [c])
    else (.loopExitFail c, [c])

/-- A full `executeFlowWithProxyManager` run: `ticketRefreshCount` starts at
0 with `maxTicketRefresh = 10` (`dynamic-executor.js` lines 541-542). -/
def executeFlowRun (evs : List IterEvent) : FlowOutcome × List Nat :=
  executeFlowLoop 10 evs 0

/-- Shared mutable state of `DynamicMultiAccountExecutor`: the `results`
map, the `accountQueue` and `proxyQueue` queues, and `runningTasks` — the
accounts whose task was launched but whose promise has NOT settled by the
time the run stops waiting (`dynamic-executor.js` lines 148-153).  A result
is recorded only in the `.then`/`.catch` handlers of
`startSingleAccountTask`, so a bound account sits in `runningTasks`, not in
`results`, until its task settles. -/
structure ExecState where
  results : List TaskResult
  accountQueue : List Account
  proxyQueue : List ProxyInfo
  runningTasks : List Account
deriving DecidableEq, Repr

/-- Outcome of one `getProxyFromSource(proxyType, batchSize)` call inside
`startContinuousProxyValidation`: a thrown acquisition error, or a batch of
candidates each tagged with whether its `testProxyIP` validation succeeds. -/
inductive FetchOutcome
  | fetchThrow (msg : String)
  | fetched (cands : List (ProxyInfo × Bool))
deriving Repr

/-- `validateAndImmediatelyAssign` applied across one batch
(`dynamic-executor.js` lines 232-246 and 314-371), serialized in
validation-completion order: each validated candidate immediately pops the
longest-waiting account and launches its task, or joins `proxyQueue` when no
account waits; failed candidates are dropped.  `flowEnv a = some r` means
account `a`'s launched task settles with result `r` before the run collects
its results (the `.then`/`.catch` of `startSingleAccountTask` then records
it); `flowEnv a = none` means the task is still in flight when the monitor
gives up waiting, so the account stays in `runningTasks` and NOTHING is
recorded for it. -/
def assignValidated (flowEnv : Account → Option TaskResult) :
    List (ProxyInfo × Bool) → ExecState → ExecState
  | [], st => st
  | (p, ok) :: rest, st =>
    if ok then
      match st.accountQueue with
      | a :: as =>
        match flowEnv a with
        | some r =>
          assignValidated flowEnv rest
            { st with accountQueue := as, results := st.results ++ [r] }
        | none =>
          assignValidated flowEnv rest
            { st with accountQueue := as, runningTasks := st.runningTasks ++ [a] }
      | [] =>
        assignValidated flowEnv rest { st with proxyQueue := st.proxyQueue ++ [p] }
    else assignValidated flowEnv rest st

/-- `startContinuousProxyValidation` (`dynamic-executor.js` lines 200-276):
the `while (accountQueue.length > 0 && attempt <= maxAttempts)` loop over
attempt numbers 1..20.  A thrown acquisition error waits 3 s and retries; an
empty returned list waits 2 s and retries; otherwise the batch is validated
and assigned.  The inter-iteration delays do not change the queue state and
are omitted here. -/
def startContinuousProxyValidation (fetchEnv : Nat → FetchOutcome)
    (flowEnv : Account → Option TaskResult) : List Nat → ExecState → ExecState
  | [], st => st
  | attempt :: rest, st =>
    if st.accountQueue.isEmpty then st
    else
      match fetchEnv attempt with
      | .fetchThrow _ => startContinuousProxyValidation fetchEnv flowEnv rest st
      | .fetched cands =>
        if cands.isEmpty then startContinuousProxyValidation fetchEnv flowEnv rest st
        else
          startContinuousProxyValidation fetchEnv flowEnv rest
            (assignValidated flowEnv cands st)

/-- `tryAssignProxyToAccount` (`dynamic-executor.js` lines 388-402): the
`while (proxyQueue.length > 0 && accountQueue.length > 0)` loop that shifts
one route and one account per iteration and starts the account's task.
Returns (remaining routes, remaining accounts, the bindings made in order). -/
def tryAssignProxyToAccount :
    List ProxyInfo → List Account → List ProxyInfo × List Account × List (Account × ProxyInfo)
  | p :: ps, a :: as =>
    let r := tryAssignProxyToAccount ps as
    (r.1, r.2.1, (a, p) :: r.2.2)
  | ps, as => (ps, as, [])

/-- Settlement of the tasks launched by a matching pass: a task that settles
before result collection records its result (the `.then`/`.catch` of
`startSingleAccountTask`); a task still in flight leaves its account in
`runningTasks` with nothing recorded. -/
def recordBindings (flowEnv : Account → Option TaskResult) :
    List (Account × ProxyInfo) → ExecState → ExecState
  | [], st => st
  | (a, _) :: rest, st =>
    match flowEnv a with
    | some r => recordBindings flowEnv rest { st with results := st.results ++ [r] }
    | none => recordBindings flowEnv rest { st with runningTasks := st.runningTasks ++ [a] }

/-- The matching passes performed by `startDynamicAccountExecution`
(`dynamic-executor.js` lines 447-473): `tryAssignProxyToAccount` launches a
task per binding, and each launched task either settles in time (recording
its result) or is still in flight (staying in `runningTasks`).  The monitor
loop otherwise only waits and re-checks; its guard is
`runningTasks.size > 0 || accountQueue.length > 0`, and when the 300 s
ceiling is hit it breaks out of that guard, ABANDONING both the still-queued
accounts and the still-running tasks — neither gets an entry in `results`. -/
def monitorAssignPass (flowEnv : Account → Option TaskResult) (st : ExecState) : ExecState :=
  let r := tryAssignProxyToAccount st.proxyQueue st.accountQueue
  recordBindings flowEnv r.2.2
    { st with accountQueue := r.2.1, proxyQueue := r.1 }

/-- `executeDynamicMultipleAccounts` (`dynamic-executor.js` lines 162-192),
returning the final executor state: fresh state, the continuous validation
loop over attempts 1..20 concurrently with the monitor (serialized:
validation first, then the monitor's matching passes until it stops waiting
— by all work finishing or by the 300 s break), results collected from the
`results` map. -/
def executeDynamicFull (fetchEnv : Nat → FetchOutcome)
    (flowEnv : Account → Option TaskResult) (accounts : List Account) : ExecState :=
  let st0 : ExecState :=
    { results := [], accountQueue := accounts, proxyQueue := [], runningTasks := [] }
  let st1 := startContinuousProxyValidation fetchEnv flowEnv
    ((List.range 20).map (· + 1)) st0
  monitorAssignPass flowEnv st1

/-- The value `executeDynamicMultipleAccounts` resolves with:
`Array.from(this.results.values())` (`dynamic-executor.js` line 186) —
accounts in `accountQueue` or `runningTasks` have no entry there. -/
def executeDynamicMultipleAccounts (fetchEnv : Nat → FetchOutcome)
    (flowEnv : Account → Option TaskResult) (accounts : List Account) : List TaskResult :=
  (executeDynamicFull fetchEnv flowEnv accounts).results

/-- A raw 闪尘代理 (vendor 1) list entry as delivered by its API (note the
`sever` spelling, kept from the source). -/
structure RawProxy1 where
  sever : String
  port : Nat
deriving DecidableEq, Repr

/-- The vendor-1 response body: `status`, optional `info`, optional `list`,
optional `expire`. -/
structure VendorData1 where
  status : String
  info : Option String
  list : Option (List RawProxy1)
  expire : Option String
deriving DecidableEq, Repr

/-- A raw IP赞代理 (vendor 2) list entry.  The `expired` timestamp is kept as
the string it is rendered to (`new Date(...).toLocaleString()` is locale
formatting, abstracted as the given rendering). -/
structure RawProxy2 where
  ip : String
  port : Nat
  expired : Option String
  net : Option String
deriving DecidableEq, Repr

/-- The vendor-2 response body: `code`, optional `message`, optional
`data.list`. -/
structure VendorData2 where
  code : Int
  message : Option String
  list : Option (List RawProxy2)
deriving DecidableEq, Repr

/-- `parseBatchProxyResponse` for `proxyType === 1` (`proxy-config.js` lines
195-210): a non-zero `status` or an absent/empty `list` throws; otherwise the
entries are mapped to `ProxyInfo`. -/
def parseBatchProxyResponse1 (d : VendorData1) : Except String (List ProxyInfo) :=
  if d.status ≠ "0" then .error ("获取代理IP失败: " ++ d.info.getD "未知错误")
  else
    match d.list with
    | none => .error "代理API返回的IP列表为空"
    | some l =>
      if l.isEmpty then .error "代理API返回的IP列表为空"
      else .ok (l.map fun p =>
        { server := p.sever, port := p.port, expire := d.expire, source := "闪尘代理" })

/-- `parseBatchProxyResponse` for `proxyType === 2` (`proxy-config.js` lines
211-227): a non-zero `code` or an absent/empty `data.list` throws. -/
def parseBatchProxyResponse2 (d : VendorData2) : Except String (List ProxyInfo) :=
  if d.code ≠ 0 then .error ("获取代理IP失败: " ++ d.message.getD "未知错误")
  else
    match d.list with
    | none => .error "代理API返回的IP列表为空"
    | some l =>
      if l.isEmpty then .error "代理API返回的IP列表为空"
      else .ok (l.map fun p =>
        { server := p.ip, port := p.port, expire := p.expired, source := "IP赞代理" })

/-- Which branch one iteration of `startContinuousProxyValidation` takes
after its `getProxyFromSource` call settles (`dynamic-executor.js` lines
219-271): the `proxyList.length === 0` branch waits 2000 ms and retries; a
non-empty list proceeds to concurrent validation; a thrown error is caught
and waits 3000 ms before retrying. -/
inductive AllocIterPath
  | emptyRetry (delayMs : Nat)
  | validate (count : Nat)
  | errorRetry (delayMs : Nat)
deriving DecidableEq, Repr

/-- The branch decision of one allocator iteration, as a function of the
settled `getProxyFromSource` result. -/
def allocIterPath (fetchResult : Except String (List ProxyInfo)) : AllocIterPath :=
  match fetchResult with
  | .error _ => .errorRetry 3000
  | .ok l => if l.length = 0 then .emptyRetry 2000 else .validate l.length

/-- A concrete account used by counterexamples and witnesses. -/
def acct0 : Account := { name := "李四", phone := "13800000000", accId := "acc-1" }

/-- A concrete validated route used by counterexamples and witnesses. -/
def proxy0 : ProxyInfo :=
  { server := "103.43.135.9", port := 56225, source := "闪尘代理", expire := none }

/-- An acquisition environment in which `getProxyFromSource` throws on every
attempt. -/
def fetchEnvAllThrow : Nat → FetchOutcome := fun _ => .fetchThrow "获取代理IP失败"

/-- A task-settlement environment: every launched task settles successfully
before result collection. -/
def flowEnvAllOk : Account → Option TaskResult := fun a =>
  some { account := a, success := true, error := none }

/-- A task-settlement environment in which no launched task settles before
the monitor's 300 s ceiling breaks (e.g. a task hot-polling a backend that
never returns a ticket). -/
def flowEnvNeverSettles : Account → Option TaskResult := fun _ => none

/-- An acquisition environment yielding one validation-passing route per
attempt. -/
def fetchEnvOneProxy : Nat → FetchOutcome := fun _ => .fetched [(proxy0, true)]

/-- A `switchProxy` acquisition environment in which every candidate fails
validation. -/
def acqEnvAllFail : Nat → AcqOutcome := fun _ => .validateFail "代理IP验证失败"

/-- A duplicate-submission rejection response: `success: false` with a
duplicate code and message that match neither `TICKET_INVALID` nor the
ticket-expired message patterns. -/
def duplicateRejection : SubmitAttempt :=
  .response false (some "DUPLICATE_APPLY") (some "该账户已提交过申请，请勿重复提交")

/-- A thrown business-layer error: an HTTP 400 rejection whose message
matches none of the transport substrings of `isNetworkError`. -/
def businessError400 : JsError :=
  { message := some "参数校验失败", code := none, status := some 400 }

/-- An error carrying the duplicate-submission sentinel prefix that
`executeStepWithProxyManager` tests for.  As a plain `Error` it has no
`response`, so its status is absent. -/
def dupSentinelError : JsError :=
  { message := some "DUPLICATE_SUBMISSION: 该账户已提交过申请", code := none, status := none }

/-- A thrown transport-layer error (a dropped connection). -/
def socketHangUpError : JsError :=
  { message := some "socket hang up", code := none, status := none }

/-- The `NETWORK_ERROR:`-prefixed error rethrown after the `TypeError` of
the ticket-expired check is classified as a network error. -/
def typeErrorRethrown : JsError :=
  { message := some ("NETWORK_ERROR: " ++ typeErrorOnIncludes.message.getD ""),
    code := none, status := none }

/-!
## Theorems
-/

/-- Claim C9: after a matching pass of `tryAssignProxyToAccount` completes,
the free-route queue and the waiting-task queue are not both non-empty: the
pairwise draining loop runs to fixpoint before control returns. -/
theorem C9_match_fixpoint : ∀ (ps : List ProxyInfo) (as : List Account),
    (tryAssignProxyToAccount ps as).1 = [] ∨ (tryAssignProxyToAccount ps as).2.1 = [] := by
  intro ps
  induction ps with
  | nil => intro as; left; rfl
  | cons p ps ih =>
    intro as
    cases as with
    | nil => right; rfl
    | cons a as =>
      have h := ih as
      simpa [tryAssignProxyToAccount] using h

/-- Claim C5, counterexample: an HTTP 400 business rejection whose message
happens to contain the word `network` is classified as a transport failure
by `isNetworkError`, contradicting the claim that every 4xx error is
reported as business-layer regardless of message text. -/
theorem C5_counterexample :
    ({ message := some "network", code := none, status := some 400 : JsError }).status.getD 0 = 400 ∧
    isNetworkError { message := some "network", code := none, status := some 400 } = true := by
  exact ⟨by decide, by decide⟩

/-- Claim C5, amended: an error with HTTP status in the 4xx range is
classified business-layer by `isNetworkError` provided its `code` is not a
recognized connection error code and its lowercased message contains none of
the status-unguarded transport substrings. -/
theorem C5_amended (e : JsError) (h1 : 400 ≤ e.status.getD 0) (h2 : e.status.getD 0 < 500)
    (hc : isConnErrorCode (e.code.getD "") = false)
    (hm : transportTextClauses (jsToLower (e.message.getD "")) = false) :
    isNetworkError e = false := by
  have hs500 : decide (500 ≤ e.status.getD 0) = false := by
    simp only [decide_eq_false_iff_not]; omega
  have hs0 : (e.status.getD 0 == 0) = false := by
    simp only [beq_eq_false_iff_ne, ne_eq]; omega
  simp only [isNetworkError, hs500, hs0, hc, Bool.or_self, Bool.or_false,
    Bool.false_or, Bool.false_and, Bool.and_false]
  simp only [transportTextClauses] at hm
  simp only [Bool.or_eq_false_iff] at hm ⊢
  tauto

/-- Claim C5, amended, witness: a concrete 403 rejection with a harmless
message is classified business-layer. -/
theorem C5_amended_witness :
    isNetworkError { message := some "invalid parameter", code := none, status := some 403 } = false := by
  exact C5_amended { message := some "invalid parameter", code := none, status := some 403 }
    (by decide) (by decide) (by decide) (by decide)

/-- Claim C8, counterexample: a vendor-1 response with zero candidates
(`status = 0`, empty `list`) makes `parseBatchProxyResponse` throw, so the
allocator iteration takes the 3-second catch branch, not the claimed
2-second empty-result branch. -/
theorem C8_counterexample :
    parseBatchProxyResponse1 { status := "0", info := none, list := some [], expire := none } =
      .error "代理API返回的IP列表为空" ∧
    allocIterPath (parseBatchProxyResponse1 { status := "0", info := none, list := some [], expire := none }) =
      .errorRetry 3000 := by
  exact ⟨rfl, by decide⟩

/-- Claim C8, amended: `parseBatchProxyResponse` never returns an empty
candidate list — a vendor response with zero candidates is converted into a
thrown empty-list error handled by the allocator's 3-second catch path, so
the allocator's 2-second zero-candidate branch is unreachable from
`getProxyFromSource` output. -/
theorem C8_amended : ∀ (d1 : VendorData1) (d2 : VendorData2),
    (∀ l, parseBatchProxyResponse1 d1 = .ok l → l ≠ []) ∧
    (d1.list = some [] → allocIterPath (parseBatchProxyResponse1 d1) = .errorRetry 3000) ∧
    (∀ l, parseBatchProxyResponse2 d2 = .ok l → l ≠ []) ∧
    (d2.list = some [] → allocIterPath (parseBatchProxyResponse2 d2) = .errorRetry 3000) := by
  intro d1 d2
  refine ⟨?_, ?_, ?_, ?_⟩
  · intro l hl
    unfold parseBatchProxyResponse1 at hl
    split at hl
    · exact absurd hl (by simp)
    · split at hl
      · exact absurd hl (by simp)
      · split at hl
        · exact absurd hl (by simp)
        · rename_i l0 hne
          simp only [Except.ok.injEq] at hl
          subst hl
          simpa [List.isEmpty_iff] using hne
  · intro hempty
    unfold parseBatchProxyResponse1
    rw [hempty]
    split
    · rfl
    · rfl
  · intro l hl
    unfold parseBatchProxyResponse2 at hl
    split at hl
    · exact absurd hl (by simp)
    · split at hl
      · exact absurd hl (by simp)
      · split at hl
        · exact absurd hl (by simp)
        · rename_i l0 hne
          simp only [Except.ok.injEq] at hl
          subst hl
          simpa [List.isEmpty_iff] using hne
  · intro hempty
    unfold parseBatchProxyResponse2
    rw [hempty]
    split
    · rfl
    · rfl

/-- Claim C8, amended, witness: concrete zero-candidate responses from both
vendors are routed to the 3-second catch branch. -/
theorem C8_amended_witness :
    allocIterPath (parseBatchProxyResponse1 { status := "0", info := none, list := some [], expire := some "2025-09-26 16:39:16" }) =
      .errorRetry 3000 ∧
    allocIterPath (parseBatchProxyResponse2 { code := 0, message := none, list := some [] }) =
      .errorRetry 3000 := by
  have h := C8_amended
    { status := "0", info := none, list := some [], expire := some "2025-09-26 16:39:16" }
    { code := 0, message := none, list := some [] }
  exact ⟨h.2.1 rfl, h.2.2.2 rfl⟩

/-- Claim C2, code evaluation at the failing input: after a
duplicate-submission rejection response, `submitReservation` falls into the
generic retry branch (`其他失败情况，立即重试`) and issues another SUBMIT
call immediately — with a trace of n+1 duplicate rejections it performs all
n+1 SUBMIT calls and is still looping, never terminating with a duplicate
outcome and never raising the `DUPLICATE_SUBMISSION:` error on which the
executor's stop branch depends. -/
theorem C2_duplicate_retries_forever : ∀ n : Nat,
    submitReservationLoop (List.replicate (n + 1) duplicateRejection) =
      (SubmitOutcome.exhausted, n + 1) := by
  intro n
  induction n with
  | zero => rfl
  | succ k ih =>
    have hstep : submitReservationLoop (List.replicate (k + 2) duplicateRejection) =
        ((submitReservationLoop (List.replicate (k + 1) duplicateRejection)).1,
         (submitReservationLoop (List.replicate (k + 1) duplicateRejection)).2 + 1) := rfl
    rw [hstep, ih]

/-- Claim C10: a SUBMIT response with `success: false`, a code other than
`TICKET_INVALID`, and an absent message makes the ticket-expired check raise
a `TypeError` (operator precedence evaluates `message.includes(已过期)` on
the absent message); the `TypeError` has no HTTP status, so the surrounding
catch classifies it as a network error and rethrows it as `NETWORK_ERROR:`,
which the step wrapper answers with a proxy switch instead of reporting the
business rejection. -/
theorem C10_typeerror_networkswitch : ∀ (code : Option String) (rest : List SubmitAttempt),
    code ≠ some "TICKET_INVALID" →
    ticketExpiredCheck code none = .error () ∧
    submitReservationLoop (.response false code none :: rest) =
      (.netThrow ("NETWORK_ERROR: " ++ typeErrorOnIncludes.message.getD ""), 1) ∧
    isNetworkError typeErrorOnIncludes = true ∧
    (executeStepWithProxyManager (.thrown typeErrorRethrown) (some proxy0)
      (.ok "retry") "提交预约申请").switchCalled = true := by
  intro code rest hcode
  have hbeq : (code == some "TICKET_INVALID") = false := by
    simpa [beq_eq_false_iff_ne] using hcode
  have hcheck : ticketExpiredCheck code none = .error () := by
    simp [ticketExpiredCheck, hbeq]
  refine ⟨hcheck, ?_, by decide, by decide⟩
  simp only [submitReservationLoop, hcheck]
  have hnet : isNetworkError typeErrorOnIncludes = true := by decide
  simp [hnet]

/-- Claim C10, witness: the concrete failing response
`success: false, code: SYSTEM_BUSY, message: undefined` is rethrown as the
`NETWORK_ERROR:` wrapping of the `TypeError`, after exactly one SUBMIT
call. -/
theorem C10_typeerror_networkswitch_witness :
    submitReservationLoop [.response false (some "SYSTEM_BUSY") none] =
      (.netThrow ("NETWORK_ERROR: " ++ typeErrorOnIncludes.message.getD ""), 1) := by
  exact (C10_typeerror_networkswitch (some "SYSTEM_BUSY") [] (by decide)).2.1

/-- Invariant of the ticket-refresh loop, generalized over the entry value of
`ticketRefreshCount`: the recorded counter trace starts at the entry value,
is non-decreasing, stays at most 10, and the final counter reaches 10 only
through the in-loop max-refresh failure; a success outcome carries a counter
below 10. -/
theorem executeFlowLoop_inv : ∀ (evs : List IterEvent) (c : Nat), c < 10 →
    (executeFlowLoop 10 evs c).2.head? = some c ∧
    List.Chain' (· ≤ ·) (executeFlowLoop 10 evs c).2 ∧
    (∀ x ∈ (executeFlowLoop 10 evs c).2, x ≤ 10) ∧
    (executeFlowLoop 10 evs c).1.refreshCount ≤ 10 ∧
    ((executeFlowLoop 10 evs c).1.refreshCount = 10 →
      (executeFlowLoop 10 evs c).1 = .maxRefreshFail 10) ∧
    ((executeFlowLoop 10 evs c).1.isSuccess = true →
      (executeFlowLoop 10 evs c).1.refreshCount < 10) := by
  intro evs
  induction evs with
  | nil =>
    intro c h
    simp only [executeFlowLoop, if_pos h]
    refine ⟨rfl, by simp, by simp; omega, by simp [FlowOutcome.refreshCount]; omega,
      by simp [FlowOutcome.refreshCount]; omega, by simp [FlowOutcome.isSuccess]⟩
  | cons e rest ih =>
    intro c h
    cases e with
    | ticketFail =>
      simp only [executeFlowLoop, if_pos h]
      refine ⟨rfl, by simp, by simp; omega, by simp [FlowOutcome.refreshCount]; omega,
        by simp [FlowOutcome.refreshCount]; omega, by simp [FlowOutcome.isSuccess]⟩
    | verifyFail =>
      simp only [executeFlowLoop, if_pos h]
      refine ⟨rfl, by simp, by simp; omega, by simp [FlowOutcome.refreshCount]; omega,
        by simp [FlowOutcome.refreshCount]; omega, by simp [FlowOutcome.isSuccess]⟩
    | submitOk m =>
      simp only [executeFlowLoop, if_pos h]
      refine ⟨rfl, by simp, by simp; omega, by simp [FlowOutcome.refreshCount]; omega,
        by simp [FlowOutcome.refreshCount]; omega, by simp [FlowOutcome.refreshCount]; omega⟩
    | submitStop m =>
      simp only [executeFlowLoop, if_pos h]
      refine ⟨rfl, by simp, by simp; omega, by simp [FlowOutcome.refreshCount]; omega,
        by simp [FlowOutcome.refreshCount]; omega, by simp [FlowOutcome.isSuccess]⟩
    | submitOtherFail err =>
      simp only [executeFlowLoop, if_pos h]
      refine ⟨rfl, by simp, by simp; omega, by simp [FlowOutcome.refreshCount]; omega,
        by simp [FlowOutcome.refreshCount]; omega, by simp [FlowOutcome.isSuccess]⟩
    | submitNeedRefresh =>
      simp only [executeFlowLoop, if_pos h]
      by_cases hmax : c + 1 ≥ 10
      · simp only [if_pos hmax]
        have hc : c + 1 = 10 := by omega
        refine ⟨rfl, by simp, by simp; omega,
          by simp [FlowOutcome.refreshCount]; omega,
          by intro _; simp [hc], by simp [FlowOutcome.isSuccess]⟩
      · simp only [if_neg hmax]
        have h1 : c + 1 < 10 := by omega
        obtain ⟨ihh, ihchain, ihmem, ihcount, ihmax10, ihsucc⟩ := ih (c + 1) h1
        refine ⟨rfl, ?_, ?_, ihcount, ihmax10, ihsucc⟩
        · rw [List.chain'_cons']
          refine ⟨?_, ihchain⟩
          intro b hb
          rw [ihh] at hb
          simp at hb
          omega
        · intro x hx
          rcases List.mem_cons.mp hx with hx | hx
          · omega
          · exact ihmem x hx

/-- Claim C3: within one `executeFlowWithProxyManager` run,
`ticketRefreshCount` starts at 0, the counter values observed across the
loop are non-decreasing and never exceed 10, and when the final counter
reaches 10 the outcome is the max-refresh failure (`已达到最大ticket刷新次数`),
never a success. -/
theorem C3_refresh_invariant : ∀ evs : List IterEvent,
    (executeFlowRun evs).2.head? = some 0 ∧
    List.Chain' (· ≤ ·) (executeFlowRun evs).2 ∧
    (∀ x ∈ (executeFlowRun evs).2, x ≤ 10) ∧
    (executeFlowRun evs).1.refreshCount ≤ 10 ∧
    ((executeFlowRun evs).1.refreshCount = 10 →
      (executeFlowRun evs).1 = .maxRefreshFail 10) ∧
    ((executeFlowRun evs).1.isSuccess = true →
      (executeFlowRun evs).1.refreshCount < 10) := by
  intro evs
  simpa [executeFlowRun] using executeFlowLoop_inv evs 0 (by omega)

/-- Claim C3, witness: a run whose SUBMIT responds ticket-expired ten times
ends with counter 10 and the max-refresh failure outcome. -/
theorem C3_refresh_invariant_witness :
    (executeFlowRun (List.replicate 10 IterEvent.submitNeedRefresh)).1 =
      .maxRefreshFail 10 := by
  have h := C3_refresh_invariant (List.replicate 10 IterEvent.submitNeedRefresh)
  exact h.2.2.2.2.1 (by decide)

/-- Bounds for `switchProxy`, by induction on the remaining allowance
`20 - switchCount`: the attempts performed never push past the 20-attempt
budget, the counter stays at most 20, and at an exhausted counter the call
returns `none` without performing any acquisition. -/
theorem switchProxy_bound_aux : ∀ (k : Nat) (env : Nat → AcqOutcome) (i : Nat) (s : PMState),
    20 - s.switchCount ≤ k → s.switchCount ≤ 20 →
    (switchProxy env i s).2.2 + s.switchCount ≤ 20 ∧
    (switchProxy env i s).2.1.switchCount ≤ 20 ∧
    (20 ≤ s.switchCount → (switchProxy env i s).1 = none ∧ (switchProxy env i s).2.2 = 0) := by
  intro k
  induction k with
  | zero =>
    intro env i s hk hs
    have h20 : 20 ≤ s.switchCount := by omega
    rw [switchProxy]
    simp only [if_pos h20]
    exact ⟨by omega, hs, fun _ => ⟨trivial, trivial⟩⟩
  | succ k ih =>
    intro env i s hk hs
    by_cases h20 : 20 ≤ s.switchCount
    · rw [switchProxy]
      simp only [if_pos h20]
      exact ⟨by omega, hs, fun _ => ⟨trivial, trivial⟩⟩
    · rw [switchProxy]
      simp only [if_neg h20]
      have hlt : s.switchCount < 20 := by omega
      cases henv : env i with
      | validateOk p =>
        simp only [henv]
        exact ⟨by omega, by omega, fun habs => absurd habs h20⟩
      | validateFail err =>
        simp only [henv]
        by_cases hrec : s.switchCount + 1 < 20
        · simp only [if_pos hrec]
          have hr := ih env (i + 1) { s with switchCount := s.switchCount + 1 }
            (by show 20 - (s.switchCount + 1) ≤ k; omega)
            (by show s.switchCount + 1 ≤ 20; omega)
          refine ⟨?_, hr.2.1, fun habs => absurd habs h20⟩
          have h1 : (switchProxy env (i + 1) { s with switchCount := s.switchCount + 1 }).2.2 +
              (s.switchCount + 1) ≤ 20 := hr.1
          omega
        · simp only [if_neg hrec]
          exact ⟨by omega, by show s.switchCount + 1 ≤ 20; omega, fun habs => absurd habs h20⟩
      | fetchedEmpty =>
        simp only [henv]
        by_cases hrec : s.switchCount + 1 < 20
        · simp only [if_pos hrec]
          have hr := ih env (i + 1) { s with switchCount := s.switchCount + 1 }
            (by show 20 - (s.switchCount + 1) ≤ k; omega)
            (by show s.switchCount + 1 ≤ 20; omega)
          refine ⟨?_, hr.2.1, fun habs => absurd habs h20⟩
          have h1 : (switchProxy env (i + 1) { s with switchCount := s.switchCount + 1 }).2.2 +
              (s.switchCount + 1) ≤ 20 := hr.1
          omega
        · simp only [if_neg hrec]
          exact ⟨by omega, by show s.switchCount + 1 ≤ 20; omega, fun habs => absurd habs h20⟩
      | fetchThrow msg =>
        simp only [henv]
        by_cases hrec : s.switchCount + 1 < 20
        · simp only [if_pos hrec]
          have hr := ih env (i + 1) { s with switchCount := s.switchCount + 1 }
            (by show 20 - (s.switchCount + 1) ≤ k; omega)
            (by show s.switchCount + 1 ≤ 20; omega)
          refine ⟨?_, hr.2.1, fun habs => absurd habs h20⟩
          have h1 : (switchProxy env (i + 1) { s with switchCount := s.switchCount + 1 }).2.2 +
              (s.switchCount + 1) ≤ 20 := hr.1
          omega
        · simp only [if_neg hrec]
          exact ⟨by omega, by show s.switchCount + 1 ≤ 20; omega, fun habs => absurd habs h20⟩

/-- Claim C4: `IndependentProxyManager.switchProxy` always terminates (it is
a total function of its acquisition environment); starting from a counter of
at most 20, the number of acquisition attempts it performs plus the entry
counter never exceeds `maxSwitchAttempts` (20) — so one exhaustion cycle
performs at most 20 acquisitions — the counter never exceeds 20, and at an
already-exhausted counter it returns `none` (unavailable) without acquiring
any route. -/
theorem C4_switchProxy_bounded (env : Nat → AcqOutcome) (i : Nat) (s : PMState)
    (hs : s.switchCount ≤ 20) :
    (switchProxy env i s).2.2 + s.switchCount ≤ 20 ∧
    (switchProxy env i s).2.2 ≤ 20 ∧
    (switchProxy env i s).2.1.switchCount ≤ 20 ∧
    (20 ≤ s.switchCount → (switchProxy env i s).1 = none ∧ (switchProxy env i s).2.2 = 0) := by
  have h := switchProxy_bound_aux (20 - s.switchCount) env i s (by omega) hs
  exact ⟨h.1, by omega, h.2.1, h.2.2⟩

/-- Claim C4, witness: with every candidate failing validation, a fresh
manager performs attempts within the budget, and an exhausted manager
(counter 20) returns unavailable with zero acquisitions. -/
theorem C4_switchProxy_bounded_witness :
    (switchProxy acqEnvAllFail 0 { switchCount := 0, currentProxy := none }).2.2 ≤ 20 ∧
    (switchProxy acqEnvAllFail 0 { switchCount := 20, currentProxy := none }).1 = none ∧
    (switchProxy acqEnvAllFail 0 { switchCount := 20, currentProxy := none }).2.2 = 0 := by
  have h0 := C4_switchProxy_bounded acqEnvAllFail 0 { switchCount := 0, currentProxy := none }
    (by decide)
  have h20 := C4_switchProxy_bounded acqEnvAllFail 0 { switchCount := 20, currentProxy := none }
    (by decide)
  exact ⟨h0.2.1, (h20.2.2.2 (by decide)).1, (h20.2.2.2 (by decide)).2⟩

/-- Claim C6, counterexample: (i) an error carrying the
`DUPLICATE_SUBMISSION:` sentinel has no HTTP status, so the classifier deems
it transport-layer, yet `executeStepWithProxyManager` returns without
calling `switchProxy`; (ii) when `switchProxy` yields no route,
`executeWithNetworkErrorHandling` fails with the ORIGINAL error
(`socket hang up`), not with a no-route-available error. -/
theorem C6_counterexample :
    (isNetworkError dupSentinelError ||
      strIncludes (dupSentinelError.message.getD "") "NETWORK_ERROR:") = true ∧
    (executeStepWithProxyManager (.thrown dupSentinelError) (some proxy0)
      (.ok "r") "提交预约申请").switchCalled = false ∧
    isNetworkError socketHangUpError = true ∧
    (executeWithNetworkErrorHandling (.thrown socketHangUpError) none (.ok "r")).error =
      some "socket hang up" := by
  exact ⟨by decide, by decide, by decide, by decide⟩

/-- Claim C6, amended: for a thrown error not carrying the
`DUPLICATE_SUBMISSION:` sentinel, both step wrappers behave as claimed on
the classifier verdict — transport: `switchProxy` is called; a yielded route
triggers exactly one retry whose failure becomes the step failure with the
retry error; no route fails the step immediately, `executeStepWithProxyManager`
with the no-route message and `executeWithNetworkErrorHandling` with the
original error; business: no switch, no retry, the step fails with the
original error message. -/
theorem C6_amended (e : JsError) (sw : Option ProxyInfo) (retry : StepAttempt)
    (stepName : String)
    (hdup : strIncludes (e.message.getD "") "DUPLICATE_SUBMISSION:" = false) :
    ((isNetworkError e || strIncludes (e.message.getD "") "NETWORK_ERROR:") = true →
      (executeStepWithProxyManager (.thrown e) sw retry stepName).switchCalled = true ∧
      (executeWithNetworkErrorHandling (.thrown e) sw retry).switchCalled = true ∧
      (sw = none →
        executeStepWithProxyManager (.thrown e) sw retry stepName =
          ⟨false, some ("无法获取到可用代理，" ++ stepName ++ " 执行失败"), false, false, true, 1⟩ ∧
        executeWithNetworkErrorHandling (.thrown e) sw retry =
          ⟨false, some (e.message.getD ""), false, false, true, 1⟩) ∧
      (∀ p, sw = some p →
        (executeStepWithProxyManager (.thrown e) sw retry stepName).stepCalls = 2 ∧
        (executeWithNetworkErrorHandling (.thrown e) sw retry).stepCalls = 2 ∧
        (∀ tag, retry = .ok tag →
          (executeStepWithProxyManager (.thrown e) sw retry stepName).success = true ∧
          (executeWithNetworkErrorHandling (.thrown e) sw retry).success = true) ∧
        (∀ re, retry = .thrown re →
          executeStepWithProxyManager (.thrown e) sw retry stepName =
            ⟨false, some (re.message.getD ""), false, false, true, 2⟩ ∧
          executeWithNetworkErrorHandling (.thrown e) sw retry =
            ⟨false, some (re.message.getD ""), false, false, true, 2⟩))) ∧
    ((isNetworkError e || strIncludes (e.message.getD "") "NETWORK_ERROR:") = false →
      executeStepWithProxyManager (.thrown e) sw retry stepName =
        ⟨false, some (e.message.getD ""), false, false, false, 1⟩ ∧
      executeWithNetworkErrorHandling (.thrown e) sw retry =
        ⟨false, some (e.message.getD ""), false, false, false, 1⟩) := by
  constructor
  · intro hnet
    refine ⟨?_, ?_, ?_, ?_⟩
    · cases sw <;> cases retry <;>
        simp [executeStepWithProxyManager, hdup, hnet]
    · cases sw <;> cases retry <;>
        simp [executeWithNetworkErrorHandling, hnet]
    · rintro rfl
      exact ⟨by simp [executeStepWithProxyManager, hdup, hnet],
        by simp [executeWithNetworkErrorHandling, hnet]⟩
    · rintro p rfl
      refine ⟨?_, ?_, ?_, ?_⟩
      · cases retry <;> simp [executeStepWithProxyManager, hdup, hnet]
      · cases retry <;> simp [executeWithNetworkErrorHandling, hnet]
      · rintro tag rfl
        exact ⟨by simp [executeStepWithProxyManager, hdup, hnet],
          by simp [executeWithNetworkErrorHandling, hnet]⟩
      · rintro re rfl
        exact ⟨by simp [executeStepWithProxyManager, hdup, hnet],
          by simp [executeWithNetworkErrorHandling, hnet]⟩
  · intro hnet
    exact ⟨by simp [executeStepWithProxyManager, hdup, hnet],
      by simp [executeWithNetworkErrorHandling, hnet]⟩

/-- Claim C6, amended, witness: a socket hang-up with no route available
fails `executeStepWithProxyManager` with the no-route message after one
step invocation. -/
theorem C6_amended_witness :
    executeStepWithProxyManager (.thrown socketHangUpError) none (.ok "r") "获取系统ticket" =
      ⟨false, some ("无法获取到可用代理，" ++ "获取系统ticket" ++ " 执行失败"), false, false, true, 1⟩ := by
  have h := C6_amended socketHangUpError none (.ok "r") "获取系统ticket" (by decide)
  exact ((h.1 (by decide)).2.2.1 rfl).1

/-- Claim C7, counterexample: a thrown business-layer error (HTTP 400, not
transport-classified) does NOT end the `getSystemTicket` hot-poll — the loop
immediately re-calls and succeeds on the next response, so it did not end
when the business error occurred. -/
theorem C7_counterexample :
    isNetworkError businessError400 = false ∧
    getSystemTicketLoop [.thrown businessError400, .response true (some "TKT") none] =
      (some (.gotTicket "TKT"), 2) := by
  exact ⟨by decide, by decide⟩

/-- Claim C7, amended: the `getSystemTicket` and `verifyTicket` hot-polls
re-call immediately on every non-terminal event — a business-layer not-ready
response AND a business-layer thrown error alike — and end exactly when a
ticket is returned (resp. verification succeeds) or a transport-layer error
is thrown: the loop is still polling after the whole trace iff no trace
event is terminal. -/
theorem C7_amended : ∀ (a : TicketAttempt) (tr : List TicketAttempt)
    (b : VerifyAttempt) (vr : List VerifyAttempt),
    (ticketTerminal a = false →
      getSystemTicketLoop (a :: tr) =
        ((getSystemTicketLoop tr).1, (getSystemTicketLoop tr).2 + 1)) ∧
    (∀ t msg, a = .response true (some t) msg →
      getSystemTicketLoop (a :: tr) = (some (.gotTicket t), 1)) ∧
    (∀ e, a = .thrown e → isNetworkError e = true →
      getSystemTicketLoop (a :: tr) =
        (some (.netThrow ("NETWORK_ERROR: " ++ e.message.getD "")), 1)) ∧
    ((getSystemTicketLoop tr).1 = none ↔ ∀ x ∈ tr, ticketTerminal x = false) ∧
    (verifyTerminal b = false →
      verifyTicketLoop (b :: vr) =
        ((verifyTicketLoop vr).1, (verifyTicketLoop vr).2 + 1)) ∧
    ((verifyTicketLoop vr).1 = none ↔ ∀ x ∈ vr, verifyTerminal x = false) := by
  have hticket : ∀ tr : List TicketAttempt,
      ((getSystemTicketLoop tr).1 = none ↔ ∀ x ∈ tr, ticketTerminal x = false) := by
    intro tr
    induction tr with
    | nil => simp [getSystemTicketLoop]
    | cons x rest ih =>
      cases x with
      | response succ tk msg =>
        cases succ with
        | true =>
          cases tk with
          | some t => simp [getSystemTicketLoop, ticketTerminal]
          | none => simpa [getSystemTicketLoop, ticketTerminal] using ih
        | false => simpa [getSystemTicketLoop, ticketTerminal] using ih
      | thrown e =>
        by_cases hnet : isNetworkError e
        · simp [getSystemTicketLoop, ticketTerminal, hnet]
        · simpa [getSystemTicketLoop, ticketTerminal, hnet] using ih
  have hverify : ∀ vr : List VerifyAttempt,
      ((verifyTicketLoop vr).1 = none ↔ ∀ x ∈ vr, verifyTerminal x = false) := by
    intro vr
    induction vr with
    | nil => simp [verifyTicketLoop]
    | cons x rest ih =>
      cases x with
      | response succ msg =>
        cases succ with
        | true => simp [verifyTicketLoop, verifyTerminal]
        | false => simpa [verifyTicketLoop, verifyTerminal] using ih
      | thrown e =>
        by_cases hnet : isNetworkError e
        · simp [verifyTicketLoop, verifyTerminal, hnet]
        · simpa [verifyTicketLoop, verifyTerminal, hnet] using ih
  intro a tr b vr
  refine ⟨?_, ?_, ?_, hticket tr, ?_, hverify vr⟩
  · intro hterm
    cases a with
    | response succ tk msg =>
      cases succ with
      | true =>
        cases tk with
        | some t => simp [ticketTerminal] at hterm
        | none => simp [getSystemTicketLoop]
      | false => simp [getSystemTicketLoop]
    | thrown e =>
      simp [ticketTerminal] at hterm
      simp [getSystemTicketLoop, hterm]
  · rintro t msg rfl
    simp [getSystemTicketLoop]
  · rintro e rfl hnet
    simp [getSystemTicketLoop, hnet]
  · intro hterm
    cases b with
    | response succ msg =>
      cases succ with
      | true => simp [verifyTerminal] at hterm
      | false => simp [verifyTicketLoop]
    | thrown e =>
      simp [verifyTerminal] at hterm
      simp [verifyTicketLoop, hterm]

/-- Claim C7, amended, witness: concrete instances — a 400 business error is
non-terminal and costs exactly one extra call; an all-not-ready trace leaves
the loop polling. -/
theorem C7_amended_witness :
    getSystemTicketLoop [.thrown businessError400, .response true (some "TKT") none] =
      ((getSystemTicketLoop [.response true (some "TKT") none]).1,
       (getSystemTicketLoop [.response true (some "TKT") none]).2 + 1) ∧
    (getSystemTicketLoop [.response false none none]).1 = none := by
  have h := C7_amended (.thrown businessError400) [.response true (some "TKT") none]
    (.response false none) [.response false none]
  have h2 := C7_amended (.response false none none) [.response false none none]
    (.response false none) []
  exact ⟨h.1 (by decide), (h2.2.2.2.1).mpr (by decide)⟩

/-- Assigning one validated batch preserves the sum of recorded results,
still-waiting accounts, and launched-but-unsettled accounts: each validated
candidate either converts one waiting account into one recorded result or
one in-flight task, or parks a route. -/
theorem assignValidated_conserve (flowEnv : Account → Option TaskResult) :
    ∀ (cands : List (ProxyInfo × Bool)) (st : ExecState),
    (assignValidated flowEnv cands st).results.length +
      (assignValidated flowEnv cands st).accountQueue.length +
      (assignValidated flowEnv cands st).runningTasks.length =
    st.results.length + st.accountQueue.length + st.runningTasks.length := by
  intro cands
  induction cands with
  | nil => intro st; rfl
  | cons c rest ih =>
    intro st
    obtain ⟨p, ok⟩ := c
    cases ok with
    | false => simpa [assignValidated] using ih st
    | true =>
      cases hq : st.accountQueue with
      | nil =>
        have := ih { st with proxyQueue := st.proxyQueue ++ [p] }
        simpa [assignValidated, hq] using this
      | cons a as =>
        cases hf : flowEnv a with
        | some r =>
          have := ih { st with accountQueue := as, results := st.results ++ [r] }
          simp [assignValidated, hq, hf] at this ⊢
          omega
        | none =>
          have := ih { st with accountQueue := as, runningTasks := st.runningTasks ++ [a] }
          simp [assignValidated, hq, hf] at this ⊢
          omega

/-- The continuous validation loop preserves the sum of recorded results,
still-waiting accounts, and launched-but-unsettled accounts. -/
theorem startContinuousProxyValidation_conserve (fetchEnv : Nat → FetchOutcome)
    (flowEnv : Account → Option TaskResult) :
    ∀ (attempts : List Nat) (st : ExecState),
    (startContinuousProxyValidation fetchEnv flowEnv attempts st).results.length +
      (startContinuousProxyValidation fetchEnv flowEnv attempts st).accountQueue.length +
      (startContinuousProxyValidation fetchEnv flowEnv attempts st).runningTasks.length =
    st.results.length + st.accountQueue.length + st.runningTasks.length := by
  intro attempts
  induction attempts with
  | nil => intro st; rfl
  | cons attempt rest ih =>
    intro st
    by_cases hq : st.accountQueue.isEmpty
    · simp [startContinuousProxyValidation, hq]
    · cases henv : fetchEnv attempt with
      | fetchThrow msg => simpa [startContinuousProxyValidation, hq, henv] using ih st
      | fetched cands =>
        by_cases hc : cands.isEmpty
        · simpa [startContinuousProxyValidation, hq, henv, hc] using ih st
        · have h1 := ih (assignValidated flowEnv cands st)
          have h2 := assignValidated_conserve flowEnv cands st
          simp [startContinuousProxyValidation, hq, henv, hc]
          omega

/-- A `tryAssignProxyToAccount` pass splits the waiting accounts exactly into
the accounts still waiting and the bindings made. -/
theorem tryAssignProxyToAccount_len : ∀ (ps : List ProxyInfo) (as : List Account),
    (tryAssignProxyToAccount ps as).2.1.length +
      (tryAssignProxyToAccount ps as).2.2.length = as.length := by
  intro ps
  induction ps with
  | nil => intro as; rfl
  | cons p ps ih =>
    intro as
    cases as with
    | nil => rfl
    | cons a as =>
      have := ih as
      simp [tryAssignProxyToAccount]
      omega

/-- Settling the bindings of a matching pass adds exactly one recorded
result or one in-flight account per binding, and leaves the waiting queue
untouched. -/
theorem recordBindings_conserve (flowEnv : Account → Option TaskResult) :
    ∀ (pairs : List (Account × ProxyInfo)) (st : ExecState),
    (recordBindings flowEnv pairs st).results.length +
      (recordBindings flowEnv pairs st).runningTasks.length =
      st.results.length + st.runningTasks.length + pairs.length ∧
    (recordBindings flowEnv pairs st).accountQueue = st.accountQueue := by
  intro pairs
  induction pairs with
  | nil => intro st; exact ⟨by simp [recordBindings], rfl⟩
  | cons ap rest ih =>
    intro st
    obtain ⟨a, p⟩ := ap
    cases hf : flowEnv a with
    | some r =>
      have hstep : recordBindings flowEnv ((a, p) :: rest) st =
          recordBindings flowEnv rest { st with results := st.results ++ [r] } := by
        simp [recordBindings, hf]
      have ha : (recordBindings flowEnv rest { st with results := st.results ++ [r] }).results.length +
          (recordBindings flowEnv rest { st with results := st.results ++ [r] }).runningTasks.length =
          (st.results ++ [r]).length + st.runningTasks.length + rest.length :=
        (ih { st with results := st.results ++ [r] }).1
      have hb : (recordBindings flowEnv rest { st with results := st.results ++ [r] }).accountQueue =
          st.accountQueue :=
        (ih { st with results := st.results ++ [r] }).2
      refine ⟨?_, by rw [hstep, hb]⟩
      rw [hstep]
      simp only [List.length_append, List.length_cons, List.length_singleton,
        List.length_nil] at ha ⊢
      omega
    | none =>
      have hstep : recordBindings flowEnv ((a, p) :: rest) st =
          recordBindings flowEnv rest { st with runningTasks := st.runningTasks ++ [a] } := by
        simp [recordBindings, hf]
      have ha : (recordBindings flowEnv rest { st with runningTasks := st.runningTasks ++ [a] }).results.length +
          (recordBindings flowEnv rest { st with runningTasks := st.runningTasks ++ [a] }).runningTasks.length =
          st.results.length + (st.runningTasks ++ [a]).length + rest.length :=
        (ih { st with runningTasks := st.runningTasks ++ [a] }).1
      have hb : (recordBindings flowEnv rest { st with runningTasks := st.runningTasks ++ [a] }).accountQueue =
          st.accountQueue :=
        (ih { st with runningTasks := st.runningTasks ++ [a] }).2
      refine ⟨?_, by rw [hstep, hb]⟩
      rw [hstep]
      simp only [List.length_append, List.length_cons, List.length_singleton,
        List.length_nil] at ha ⊢
      omega

/-- Claim C1, amended: every input task of `executeDynamicMultipleAccounts`
ends the run in exactly one of three places — one recorded Outcome (it was
bound to a validated route and its state machine settled before collection),
the waiting queue (it never got a route before acquisition was exhausted or
the 300 s ceiling broke the monitor), or the in-flight set (it was bound but
its task had not settled when the ceiling broke) — and
`Array.from(results.values())` contains only the first kind: tasks in the
other two are OMITTED from the final results rather than being reported as
no-route/timeout Failed outcomes. -/
theorem C1_amended : ∀ (fetchEnv : Nat → FetchOutcome)
    (flowEnv : Account → Option TaskResult) (accounts : List Account),
    (executeDynamicMultipleAccounts fetchEnv flowEnv accounts).length +
      (executeDynamicFull fetchEnv flowEnv accounts).accountQueue.length +
      (executeDynamicFull fetchEnv flowEnv accounts).runningTasks.length =
    accounts.length := by
  intro fetchEnv flowEnv accounts
  set st0 : ExecState :=
    { results := [], accountQueue := accounts, proxyQueue := [], runningTasks := [] }
    with hst0
  set st1 := startContinuousProxyValidation fetchEnv flowEnv
    ((List.range 20).map (· + 1)) st0 with hst1
  set rr := tryAssignProxyToAccount st1.proxyQueue st1.accountQueue with hrr
  set st2 : ExecState := { st1 with accountQueue := rr.2.1, proxyQueue := rr.1 } with hst2
  have hfull : executeDynamicFull fetchEnv flowEnv accounts =
      recordBindings flowEnv rr.2.2 st2 := rfl
  have hres : executeDynamicMultipleAccounts fetchEnv flowEnv accounts =
      (recordBindings flowEnv rr.2.2 st2).results := rfl
  have h1 : st1.results.length + st1.accountQueue.length + st1.runningTasks.length =
      accounts.length := by
    have h := startContinuousProxyValidation_conserve fetchEnv flowEnv
      ((List.range 20).map (· + 1)) st0
    have e01 : st0.results = ([] : List TaskResult) := rfl
    have e02 : st0.accountQueue = accounts := rfl
    have e03 : st0.runningTasks = ([] : List Account) := rfl
    rw [← hst1, e01, e02, e03] at h
    simpa using h
  have h2 := tryAssignProxyToAccount_len st1.proxyQueue st1.accountQueue
  have h3 := recordBindings_conserve flowEnv rr.2.2 st2
  have h31 : (recordBindings flowEnv rr.2.2 st2).results.length +
      (recordBindings flowEnv rr.2.2 st2).runningTasks.length =
      st1.results.length + st1.runningTasks.length + rr.2.2.length := h3.1
  have h32 : (recordBindings flowEnv rr.2.2 st2).accountQueue = rr.2.1 := h3.2
  rw [hres, hfull, h32]
  rw [← hrr] at h2
  omega

/-- Claim C1, counterexample, both drop modes: (i) with one input task and an
acquisition source that throws on every attempt, the run exhausts its 20
attempts with the task still waiting and `executeDynamicMultipleAccounts`
returns ZERO Outcomes — no `no route available` Failed outcome; (ii) with a
route delivered and bound but a task that never settles (e.g. hot-polling a
never-ready backend) until the 300 s monitor break, the bound task is
abandoned in `runningTasks` and the run again returns ZERO Outcomes — no
timeout Failed outcome.  Either way the Outcome count differs from the task
count. -/
theorem C1_counterexample :
    executeDynamicMultipleAccounts fetchEnvAllThrow flowEnvAllOk [acct0] = [] ∧
    (executeDynamicFull fetchEnvAllThrow flowEnvAllOk [acct0]).accountQueue = [acct0] ∧
    executeDynamicMultipleAccounts fetchEnvOneProxy flowEnvNeverSettles [acct0] = [] ∧
    (executeDynamicFull fetchEnvOneProxy flowEnvNeverSettles [acct0]).runningTasks = [acct0] := by
  exact ⟨by decide, by decide, by decide, by decide⟩

end Hnbt
